import Mathlib

/-!
Shallow embedding of the heatmap target generation core of
`deeplabcut/pose_estimation_pytorch/models/target_generators/heatmap_targets.py`.

Modelling choices:
* Keypoint coordinates, grid entries, strides, distances and locref values are
  rationals (the exact values the float code manipulates on the inputs of
  interest); heatmap responses are real numbers, since the Gaussian kernel
  applies `np.exp`.
* numpy arrays become total functions from indices; the in-place mutation of
  the buffer views handed to `update` becomes explicit state passing of a
  `Slice` (the per-(batch, channel) views `heatmap[b, :, :, idx]`,
  `locref_map[b, :, :, 2 idx : 2 idx + 2]`, `locref_mask[b, :, :, 2 idx : 2 idx + 2]`).
* A raised Python exception is an error flag carried beside the state: writes
  performed before the raise are kept, statements after it do not execute, and
  once the flag is set the remaining loop iterations are skipped (the
  exception propagates out of `forward`).
* `np.mgrid[:height, :width]` is an integer array, so the in-place assignments
  `grid[:, :, 0] = grid[:, :, 0] * stride_y + stride_y / 2` (and the column
  analogue) cast their float right-hand side back into the int array,
  truncating toward zero; the truncated values are nonnegative, so the stored
  entry is the floor of the exact value.
-/

namespace DLC

/-- Kernel selection: which concrete `update` runs — `HeatmapGaussianGenerator`
or `HeatmapPlateauGenerator`. -/
inductive Kernel
  | gaussian
  | plateau

/-- The one Python exception the embedded code can raise: numpy's
"The truth value of an array with more than one element is ambiguous"
ValueError, triggered by `if locref_mask:` on a multi-element array. -/
inductive PyErr
  | valueError

/-- `HeatmapGenerator.Mode`: KEYPOINT generates one heatmap per type of
keypoint, INDIVIDUAL one heatmap per individual. -/
inductive Mode
  | INDIVIDUAL
  | KEYPOINT

/-- Constructor state of `HeatmapGenerator.__init__`:
`num_heatmaps`, `dist_thresh = float(pos_dist_thresh)`, the mode, the
`generate_locref` flag and `locref_std`. -/
structure Config where
  num_heatmaps : ℕ
  dist_thresh : ℚ
  heatmap_mode : Mode
  generate_locref : Bool
  locref_std : ℚ

/-- `self.dist_thresh_sq = self.dist_thresh ** 2`. -/
def Config.dist_thresh_sq (cfg : Config) : ℚ := cfg.dist_thresh ^ 2

/-- `self.std = 2 * self.dist_thresh / 3`. -/
def Config.std (cfg : Config) : ℚ := 2 * cfg.dist_thresh / 3

/-- `self.locref_scale = 1.0 / locref_std`. -/
def Config.locref_scale (cfg : Config) : ℚ := 1 / cfg.locref_std

/-! ### Grid builder (`forward`, lines 145-147) -/

/-- `stride_y, stride_x = input_h / height, input_w / width` (true division). -/
def stride (input feat : ℕ) : ℚ := (input : ℚ) / (feat : ℚ)

/-- The exact (real-valued) center of feature cell `i` along one axis:
`i * stride + stride / 2`. -/
def gridCenterExact (input feat : ℕ) (i : ℕ) : ℚ :=
  (i : ℚ) * stride input feat + stride input feat / 2

/-- The entry actually stored by
`grid[:, :, 0] = grid[:, :, 0] * stride_y + stride_y / 2`:
`np.mgrid` produced an int array, so the float result is cast back into it,
truncating toward zero — the floor, as the value is nonnegative. -/
def gridCenter (input feat : ℕ) (i : ℕ) : ℤ := ⌊gridCenterExact input feat i⌋

/-- The grid of `forward`: cell `(i, j)` holds the (truncated) pixel-space
(row, col) center of that feature cell. -/
def buildGrid (IH IW H W : ℕ) : ℕ → ℕ → ℚ × ℚ :=
  fun i j => ((gridCenter IH H i : ℚ), (gridCenter IW W j : ℚ))

/-! ### Buffers -/

/-- The per-(batch, channel) views handed to `update`:
`heatmap` of shape (H, W), `locref_map` and `locref_mask` of shape (H, W, 2)
(component 0 is dx, component 1 is dy; the mask is an int array). -/
structure Slice where
  heatmap : ℕ → ℕ → ℝ
  locref_map : ℕ → ℕ → Fin 2 → ℚ
  locref_mask : ℕ → ℕ → Fin 2 → ℤ

/-- The zero-initialized buffers (`np.zeros` / `np.zeros_like`). -/
def zeroSlice : Slice where
  heatmap := fun _ _ => 0
  locref_map := fun _ _ _ => 0
  locref_mask := fun _ _ _ => 0

/-- Squared Euclidean distance between a grid cell center and the keypoint.
The Gaussian kernel computes it as `np.linalg.norm(grid - keypoint, axis=2) ** 2`
and the Plateau kernel as `np.sum((grid - keypoint) ** 2, axis=2)`; both equal
the sum of squared component differences (see `norm_sq_eq_distSq`). -/
def distSq (g kp : ℚ × ℚ) : ℚ := (g.1 - kp.1) ^ 2 + (g.2 - kp.2) ^ 2

/-- The scaled locref offset written for component `c` of a cell:
`dx = keypoint[1] - grid[:, :, 1]` into component 0 and
`dy = keypoint[0] - grid[:, :, 0]` into component 1, each times
`self.locref_scale`. -/
def locrefValue (cfg : Config) (g kp : ℚ × ℚ) (c : Fin 2) : ℚ :=
  if c = 0 then (kp.2 - g.2) * cfg.locref_scale else (kp.1 - g.1) * cfg.locref_scale

/-! ### `HeatmapGaussianGenerator.update` (lines 231-251) -/

/-- `heatmap_j = np.exp(-dist / (2 * self.std ** 2))`, per cell. -/
noncomputable def gaussianResponse (cfg : Config) (d : ℚ) : ℝ :=
  Real.exp (-(d : ℝ) / (2 * (cfg.std : ℝ) ^ 2))

/-- `HeatmapGaussianGenerator.update`, acting on the (H, W) views.
`locrefOn` tells whether `forward` passed actual locref views or `None`
(`get_locref` returns `None` when `generate_locref` is false).
The statements run in source order:
1. `heatmap[:, :] = np.maximum(heatmap, heatmap_j)`;
2. if the locref map is present, overwrite both its components everywhere;
3. `if locref_mask:` — numpy truthiness of the (H, W, 2) int view: with more
   than one element this raises ValueError (an empty array is falsy), so the
   mask assignment is never reached when the view is non-degenerate. -/
noncomputable def gaussianUpdate (cfg : Config) (H W : ℕ) (grid : ℕ → ℕ → ℚ × ℚ)
    (locrefOn : Bool) (kp : ℚ × ℚ) (s : Slice) : Slice × Option PyErr :=
  let hm : ℕ → ℕ → ℝ := fun i j =>
    max (s.heatmap i j) (gaussianResponse cfg (distSq (grid i j) kp))
  let s1 : Slice := { s with heatmap := hm }
  let s2 : Slice :=
    if locrefOn then
      { s1 with locref_map := fun i j c => locrefValue cfg (grid i j) kp c }
    else s1
  if locrefOn then
    if 1 < H * W * 2 then (s2, some PyErr.valueError)
    else (s2, none)
  else (s2, none)

/-! ### `HeatmapPlateauGenerator.update` (lines 258-278) -/

/-- `HeatmapPlateauGenerator.update`, acting on the (H, W) views:
`mask = dist <= self.dist_thresh_sq`; `heatmap[mask] = 1`; inside the mask
region only, overwrite the locref components and set the locref mask to 1
(this kernel checks `locref_map is not None` / `locref_mask is not None`,
so it never raises). -/
def plateauUpdate (cfg : Config) (grid : ℕ → ℕ → ℚ × ℚ)
    (locrefOn : Bool) (kp : ℚ × ℚ) (s : Slice) : Slice :=
  let hm : ℕ → ℕ → ℝ := fun i j =>
    if distSq (grid i j) kp ≤ cfg.dist_thresh_sq then 1 else s.heatmap i j
  let lrm : ℕ → ℕ → Fin 2 → ℚ :=
    if locrefOn then
      fun i j c =>
        if distSq (grid i j) kp ≤ cfg.dist_thresh_sq then
          locrefValue cfg (grid i j) kp c
        else s.locref_map i j c
    else s.locref_map
  let msk : ℕ → ℕ → Fin 2 → ℤ :=
    if locrefOn then
      fun i j c =>
        if distSq (grid i j) kp ≤ cfg.dist_thresh_sq then 1
        else s.locref_mask i j c
    else s.locref_mask
  { heatmap := hm, locref_map := lrm, locref_mask := msk }

/-- Dispatch of the abstract `update` to the registered generator. -/
noncomputable def updateFn (k : Kernel) (cfg : Config) (H W : ℕ)
    (grid : ℕ → ℕ → ℚ × ℚ) (locrefOn : Bool) (kp : ℚ × ℚ) (s : Slice) :
    Slice × Option PyErr :=
  match k with
  | Kernel.gaussian => gaussianUpdate cfg H W grid locrefOn kp s
  | Kernel.plateau => (plateauUpdate cfg grid locrefOn kp s, none)

/-! ### The per-keypoint loop body of `forward` (lines 151-162) -/

/-- `keypoint = keypoint.copy()[::-1]`: the two coordinates are reversed,
from annotation (x, y) order to (row, col) grid order. -/
def reverseKeypoint (ann : ℚ × ℚ) : ℚ × ℚ := (ann.2, ann.1)

/-- One iteration of the inner loop of `forward`: reverse the keypoint,
`if np.any(keypoint <= 0.0): continue`, otherwise call `self.update` on the
channel views. -/
noncomputable def processKeypoint (k : Kernel) (cfg : Config) (H W : ℕ)
    (grid : ℕ → ℕ → ℚ × ℚ) (locrefOn : Bool) (ann : ℚ × ℚ) (s : Slice) :
    Slice × Option PyErr :=
  let keypoint := reverseKeypoint ann
  if keypoint.1 ≤ 0 ∨ keypoint.2 ≤ 0 then (s, none)
  else updateFn k cfg H W grid locrefOn keypoint s

/-- Loop step threading the exception: once an iteration has raised, the
exception propagates and no later iteration runs. -/
noncomputable def stepKeypoint (k : Kernel) (cfg : Config) (H W : ℕ)
    (grid : ℕ → ℕ → ℚ × ℚ) (locrefOn : Bool)
    (acc : Slice × Option PyErr) (ann : ℚ × ℚ) : Slice × Option PyErr :=
  match acc.2 with
  | some _ => acc
  | none => processKeypoint k cfg H W grid locrefOn ann acc.1

/-- The loop `for keypoint in group_keypoints` of `forward` for one
(batch element, channel) pair. -/
noncomputable def processChannel (k : Kernel) (cfg : Config) (H W : ℕ)
    (grid : ℕ → ℕ → ℚ × ℚ) (locrefOn : Bool) (kps : List (ℚ × ℚ)) (s : Slice) :
    Slice × Option PyErr :=
  kps.foldl (stepKeypoint k cfg H W grid locrefOn) (s, none)

/-- The heatmap slice produced for one channel from the zero-initialized
buffers (the state left behind even if an iteration raised). -/
noncomputable def rasterHeatmap (k : Kernel) (cfg : Config) (H W : ℕ)
    (grid : ℕ → ℕ → ℚ × ℚ) (locrefOn : Bool) (kps : List (ℚ × ℚ)) :
    ℕ → ℕ → ℝ :=
  (processChannel k cfg H W grid locrefOn kps zeroSlice).1.heatmap

/-! ### Coordinate normalizer (`forward`, lines 128-134) -/

/-- `coords.reshape((batch_size, 1, *coords.shape[1:]))`: a rank-3 keypoint
batch (batch, type, 2) gains a singleton individual axis (of extent 1, so the
only valid subject index is 0). -/
def insertIndividualDim (coords3 : ℕ → ℕ → ℚ × ℚ) : ℕ → ℕ → ℕ → ℚ × ℚ :=
  fun b _ t => coords3 b t

/-- `coords.transpose((0, 2, 1, 3))` in KEYPOINT mode: axes 1 (individual)
and 2 (keypoint type) are swapped so the outer loop iterates over bodyparts;
INDIVIDUAL mode leaves the batch unchanged. -/
def arrangeCoords (mode : Mode) (coords : ℕ → ℕ → ℕ → ℚ × ℚ) :
    ℕ → ℕ → ℕ → ℚ × ℚ :=
  match mode with
  | Mode.KEYPOINT => fun b c g => coords b g c
  | Mode.INDIVIDUAL => coords

/-! ### Assembler (`forward`, lines 136-143 and 164-177) -/

/-- Shape of the allocated heatmap buffer:
`np.zeros((batch_size, height, width, self.num_heatmaps))`. -/
def heatmapAllocShape (cfg : Config) (B H W : ℕ) : ℕ × ℕ × ℕ × ℕ :=
  (B, H, W, cfg.num_heatmaps)

/-- Shape of the allocated locref map and mask buffers:
`np.zeros((batch_size, height, width, self.num_heatmaps * 2))`. -/
def locrefAllocShape (cfg : Config) (B H W : ℕ) : ℕ × ℕ × ℕ × ℕ :=
  (B, H, W, cfg.num_heatmaps * 2)

/-- `buffer.transpose((0, 3, 1, 2))` on the data: the output at
(b, c, h, w) reads the pre-transpose buffer at (b, h, w, c). -/
def transpose0312 (buf : ℕ → ℕ → ℕ → ℕ → ℝ) : ℕ → ℕ → ℕ → ℕ → ℝ :=
  fun b c h w => buf b h w c

/-- `buffer.transpose((0, 3, 1, 2))` on the shape: (B, H, W, C) becomes
(B, C, H, W). -/
def transposeShape0312 (s : ℕ × ℕ × ℕ × ℕ) : ℕ × ℕ × ℕ × ℕ :=
  (s.1, s.2.2.2, s.2.1, s.2.2.1)

/-- The heatmap tensor `forward` assembles, already in (b, c, i, j) layout:
channel slices are rasterized independently (disjoint views into the batch
buffer) from the per-channel subject lists; a channel with no keypoint list
keeps its `np.zeros` initialization. -/
noncomputable def forwardHeatmap (k : Kernel) (cfg : Config) (IH IW H W : ℕ)
    (coords : ℕ → ℕ → List (ℚ × ℚ)) : ℕ → ℕ → ℕ → ℕ → ℝ :=
  fun b c i j =>
    rasterHeatmap k cfg H W (buildGrid IH IW H W) cfg.generate_locref (coords b c) i j

/-- A concrete configuration used to instantiate the theorems:
`num_heatmaps = 2`, `pos_dist_thresh = 3`, KEYPOINT mode, locref enabled,
the default `locref_std = 7.2801`. -/
def cfgEx : Config where
  num_heatmaps := 2
  dist_thresh := 3
  heatmap_mode := Mode.KEYPOINT
  generate_locref := true
  locref_std := 7.2801

/-! ### Helper lemmas -/

/-- The Gaussian kernel's `np.linalg.norm(grid - keypoint, axis=2) ** 2`
equals the plain sum of squared component differences `distSq`. -/
lemma norm_sq_eq_distSq (g kp : ℚ × ℚ) :
    Real.sqrt (((g.1 - kp.1 : ℚ) : ℝ) ^ 2 + ((g.2 - kp.2 : ℚ) : ℝ) ^ 2) ^ 2 =
      ((distSq g kp : ℚ) : ℝ) := by
  rw [Real.sq_sqrt (by positivity)]
  rw [distSq]
  push_cast
  ring

lemma distSq_nonneg (g kp : ℚ × ℚ) : 0 ≤ distSq g kp := by
  rw [distSq]; positivity

lemma gaussianResponse_pos (cfg : Config) (d : ℚ) : 0 < gaussianResponse cfg d :=
  Real.exp_pos _

lemma gaussianResponse_le_one (cfg : Config) (d : ℚ) (hd : 0 ≤ d) :
    gaussianResponse cfg d ≤ 1 := by
  rw [gaussianResponse, Real.exp_le_one_iff, neg_div, neg_nonpos]
  apply div_nonneg (by exact_mod_cast hd) (by positivity)

lemma gaussianUpdate_fst_heatmap (cfg : Config) (H W : ℕ) (grid : ℕ → ℕ → ℚ × ℚ)
    (lo : Bool) (kp : ℚ × ℚ) (s : Slice) (i j : ℕ) :
    (gaussianUpdate cfg H W grid lo kp s).1.heatmap i j =
      max (s.heatmap i j) (gaussianResponse cfg (distSq (grid i j) kp)) := by
  rw [gaussianUpdate]
  cases lo <;> simp <;> split <;> rfl

lemma gaussianUpdate_fst_locref (cfg : Config) (H W : ℕ) (grid : ℕ → ℕ → ℚ × ℚ)
    (kp : ℚ × ℚ) (s : Slice) (i j : ℕ) (c : Fin 2) :
    (gaussianUpdate cfg H W grid true kp s).1.locref_map i j c =
      locrefValue cfg (grid i j) kp c := by
  rw [gaussianUpdate]
  simp
  split <;> rfl

lemma gaussianUpdate_fst_mask (cfg : Config) (H W : ℕ) (grid : ℕ → ℕ → ℚ × ℚ)
    (lo : Bool) (kp : ℚ × ℚ) (s : Slice) (i j : ℕ) (c : Fin 2) :
    (gaussianUpdate cfg H W grid lo kp s).1.locref_mask i j c =
      s.locref_mask i j c := by
  rw [gaussianUpdate]
  cases lo <;> simp <;> split <;> rfl

lemma gaussianUpdate_snd_raises (cfg : Config) (H W : ℕ) (grid : ℕ → ℕ → ℚ × ℚ)
    (kp : ℚ × ℚ) (s : Slice) (hH : 0 < H) (hW : 0 < W) :
    (gaussianUpdate cfg H W grid true kp s).2 = some PyErr.valueError := by
  rw [gaussianUpdate]
  simp only [if_pos]
  rw [if_pos]
  have : 1 ≤ H * W := Nat.one_le_iff_ne_zero.mpr (by positivity)
  omega

lemma gaussianUpdate_snd_none (cfg : Config) (H W : ℕ) (grid : ℕ → ℕ → ℚ × ℚ)
    (kp : ℚ × ℚ) (s : Slice) :
    (gaussianUpdate cfg H W grid false kp s).2 = none := by
  rw [gaussianUpdate]
  simp

lemma plateauUpdate_heatmap (cfg : Config) (grid : ℕ → ℕ → ℚ × ℚ) (lo : Bool)
    (kp : ℚ × ℚ) (s : Slice) (i j : ℕ) :
    (plateauUpdate cfg grid lo kp s).heatmap i j =
      if distSq (grid i j) kp ≤ cfg.dist_thresh_sq then 1 else s.heatmap i j := rfl

lemma plateauUpdate_locref (cfg : Config) (grid : ℕ → ℕ → ℚ × ℚ)
    (kp : ℚ × ℚ) (s : Slice) (i j : ℕ) (c : Fin 2) :
    (plateauUpdate cfg grid true kp s).locref_map i j c =
      if distSq (grid i j) kp ≤ cfg.dist_thresh_sq then
        locrefValue cfg (grid i j) kp c
      else s.locref_map i j c := rfl

lemma plateauUpdate_mask (cfg : Config) (grid : ℕ → ℕ → ℚ × ℚ)
    (kp : ℚ × ℚ) (s : Slice) (i j : ℕ) (c : Fin 2) :
    (plateauUpdate cfg grid true kp s).locref_mask i j c =
      if distSq (grid i j) kp ≤ cfg.dist_thresh_sq then 1
      else s.locref_mask i j c := rfl

lemma processKeypoint_skip (k : Kernel) (cfg : Config) (H W : ℕ)
    (grid : ℕ → ℕ → ℚ × ℚ) (lo : Bool) (ann : ℚ × ℚ) (s : Slice)
    (h : ann.1 ≤ 0 ∨ ann.2 ≤ 0) :
    processKeypoint k cfg H W grid lo ann s = (s, none) := by
  rw [processKeypoint]
  rw [if_pos]
  exact Or.symm h

lemma processKeypoint_snd_none (k : Kernel) (cfg : Config) (H W : ℕ)
    (grid : ℕ → ℕ → ℚ × ℚ) (ann : ℚ × ℚ) (s : Slice) :
    (processKeypoint k cfg H W grid false ann s).2 = none := by
  rw [processKeypoint]
  split
  · rfl
  · cases k
    · exact gaussianUpdate_snd_none cfg H W grid _ s
    · rfl

lemma stepKeypoint_none (k : Kernel) (cfg : Config) (H W : ℕ)
    (grid : ℕ → ℕ → ℚ × ℚ) (lo : Bool) (acc : Slice × Option PyErr)
    (ann : ℚ × ℚ) (h : acc.2 = none) :
    stepKeypoint k cfg H W grid lo acc ann =
      processKeypoint k cfg H W grid lo ann acc.1 := by
  obtain ⟨s, e⟩ := acc
  cases h
  rfl

lemma stepKeypoint_some (k : Kernel) (cfg : Config) (H W : ℕ)
    (grid : ℕ → ℕ → ℚ × ℚ) (lo : Bool) (acc : Slice × Option PyErr)
    (ann : ℚ × ℚ) (e : PyErr) (h : acc.2 = some e) :
    stepKeypoint k cfg H W grid lo acc ann = acc := by
  obtain ⟨s, e'⟩ := acc
  cases h
  rfl

lemma processChannel_one (k : Kernel) (cfg : Config) (H W : ℕ)
    (grid : ℕ → ℕ → ℚ × ℚ) (a1 : ℚ × ℚ) (s : Slice) :
    processChannel k cfg H W grid false [a1] s =
      processKeypoint k cfg H W grid false a1 s := by
  rw [processChannel, List.foldl_cons, List.foldl_nil]
  exact stepKeypoint_none k cfg H W grid false (s, none) a1 rfl

lemma processChannel_pair (k : Kernel) (cfg : Config) (H W : ℕ)
    (grid : ℕ → ℕ → ℚ × ℚ) (a1 a2 : ℚ × ℚ) (s : Slice) :
    processChannel k cfg H W grid false [a1, a2] s =
      processKeypoint k cfg H W grid false a2
        (processKeypoint k cfg H W grid false a1 s).1 := by
  rw [processChannel, List.foldl_cons, List.foldl_cons, List.foldl_nil]
  rw [stepKeypoint_none k cfg H W grid false (s, none) a1 rfl]
  exact stepKeypoint_none k cfg H W grid false _ a2
    (processKeypoint_snd_none k cfg H W grid a1 s)

lemma processKeypoint_heatmap_bounds (k : Kernel) (cfg : Config) (H W : ℕ)
    (grid : ℕ → ℕ → ℚ × ℚ) (lo : Bool) (ann : ℚ × ℚ) (s : Slice) (i j : ℕ)
    (h0 : 0 ≤ s.heatmap i j) (h1 : s.heatmap i j ≤ 1) :
    0 ≤ (processKeypoint k cfg H W grid lo ann s).1.heatmap i j ∧
      (processKeypoint k cfg H W grid lo ann s).1.heatmap i j ≤ 1 := by
  rw [processKeypoint]
  split
  · exact ⟨h0, h1⟩
  · cases k
    · rw [updateFn, gaussianUpdate_fst_heatmap]
      constructor
      · exact le_max_of_le_left h0
      · exact max_le h1 (gaussianResponse_le_one cfg _ (distSq_nonneg _ _))
    · rw [updateFn, plateauUpdate_heatmap]
      split
      · exact ⟨zero_le_one, le_refl 1⟩
      · exact ⟨h0, h1⟩

lemma foldl_heatmap_bounds (k : Kernel) (cfg : Config) (H W : ℕ)
    (grid : ℕ → ℕ → ℚ × ℚ) (lo : Bool) (i j : ℕ) :
    ∀ (kps : List (ℚ × ℚ)) (acc : Slice × Option PyErr),
      0 ≤ acc.1.heatmap i j → acc.1.heatmap i j ≤ 1 →
      0 ≤ (kps.foldl (stepKeypoint k cfg H W grid lo) acc).1.heatmap i j ∧
        (kps.foldl (stepKeypoint k cfg H W grid lo) acc).1.heatmap i j ≤ 1 := by
  intro kps
  induction kps with
  | nil => intro acc h0 h1; exact ⟨h0, h1⟩
  | cons a tl ih =>
    intro acc h0 h1
    rw [List.foldl_cons]
    apply ih
    · obtain ⟨s, e⟩ := acc
      cases e with
      | none =>
        rw [stepKeypoint_none k cfg H W grid lo (s, none) a rfl]
        exact (processKeypoint_heatmap_bounds k cfg H W grid lo a s i j h0 h1).1
      | some err =>
        rw [stepKeypoint_some k cfg H W grid lo (s, some err) a err rfl]
        exact h0
    · obtain ⟨s, e⟩ := acc
      cases e with
      | none =>
        rw [stepKeypoint_none k cfg H W grid lo (s, none) a rfl]
        exact (processKeypoint_heatmap_bounds k cfg H W grid lo a s i j h0 h1).2
      | some err =>
        rw [stepKeypoint_some k cfg H W grid lo (s, some err) a err rfl]
        exact h1

lemma processChannel_heatmap_bounds (k : Kernel) (cfg : Config) (H W : ℕ)
    (grid : ℕ → ℕ → ℚ × ℚ) (lo : Bool) (kps : List (ℚ × ℚ)) (i j : ℕ) :
    0 ≤ (processChannel k cfg H W grid lo kps zeroSlice).1.heatmap i j ∧
      (processChannel k cfg H W grid lo kps zeroSlice).1.heatmap i j ≤ 1 := by
  rw [processChannel]
  exact foldl_heatmap_bounds k cfg H W grid lo i j kps (zeroSlice, none)
    (le_refl 0) zero_le_one

lemma processKeypoint_heatmap_merge (k : Kernel) (cfg : Config) (H W : ℕ)
    (grid : ℕ → ℕ → ℚ × ℚ) (ann : ℚ × ℚ) (s : Slice) (i j : ℕ)
    (h0 : 0 ≤ s.heatmap i j) (h1 : s.heatmap i j ≤ 1) :
    (processKeypoint k cfg H W grid false ann s).1.heatmap i j =
      max (s.heatmap i j)
        ((processKeypoint k cfg H W grid false ann zeroSlice).1.heatmap i j) := by
  rw [processKeypoint, processKeypoint]
  split
  · show s.heatmap i j = max (s.heatmap i j) (zeroSlice.heatmap i j)
    exact (max_eq_left h0).symm
  · cases k
    · rw [updateFn, updateFn, gaussianUpdate_fst_heatmap, gaussianUpdate_fst_heatmap]
      show _ = max (s.heatmap i j) (max (0 : ℝ) _)
      rw [max_eq_right (gaussianResponse_pos cfg _).le]
    · rw [updateFn, updateFn, plateauUpdate_heatmap, plateauUpdate_heatmap]
      show _ = max (s.heatmap i j) (if _ then (1 : ℝ) else (0 : ℝ))
      split
      · exact (max_eq_right h1).symm
      · exact (max_eq_left h0).symm

/-! ### Claim theorems -/

/-- Claim C1: the claim states that whenever the Gaussian kernel's update runs
with a locref mask buffer supplied and a valid keypoint, the call completes
and sets the mask; the code instead evaluates `if locref_mask:` on the
(H, W, 2) mask view, which for any non-degenerate view (more than one
element) raises numpy's ambiguous-truth-value ValueError after the heatmap
and locref writes, so the call never completes and the mask is never
written. -/
theorem c1_gaussian_mask_raises (cfg : Config) (H W : ℕ)
    (grid : ℕ → ℕ → ℚ × ℚ) (ann : ℚ × ℚ) (s : Slice)
    (hH : 0 < H) (hW : 0 < W) (hv1 : 0 < ann.1) (hv2 : 0 < ann.2) :
    (processKeypoint Kernel.gaussian cfg H W grid true ann s).2 =
        some PyErr.valueError ∧
      ∀ i j c, (processKeypoint Kernel.gaussian cfg H W grid true ann s).1.locref_mask
        i j c = s.locref_mask i j c := by
  rw [processKeypoint]
  rw [if_neg (by push_neg; exact ⟨hv2, hv1⟩)]
  constructor
  · exact gaussianUpdate_snd_raises cfg H W grid _ s hH hW
  · intro i j c
    exact gaussianUpdate_fst_mask cfg H W grid true _ s i j c

/-- Witness for C1 at a concrete failing input: Gaussian kernel, locref
enabled, 4x4 feature grid, valid keypoint (3, 3) — the update raises and the
mask cell stays 0. -/
theorem c1_gaussian_mask_raises_witness :
    (processKeypoint Kernel.gaussian cfgEx 4 4 (buildGrid 8 8 4 4) true
        ((3 : ℚ), (3 : ℚ)) zeroSlice).2 = some PyErr.valueError ∧
      (processKeypoint Kernel.gaussian cfgEx 4 4 (buildGrid 8 8 4 4) true
        ((3 : ℚ), (3 : ℚ)) zeroSlice).1.locref_mask 1 1 0 = 0 := by
  have h := c1_gaussian_mask_raises cfgEx 4 4 (buildGrid 8 8 4 4)
    ((3 : ℚ), (3 : ℚ)) zeroSlice (by norm_num) (by norm_num)
    (by norm_num) (by norm_num)
  exact ⟨h.1, (h.2 1 1 0).trans rfl⟩

/-- Claim C2 counterexample: the grid builder does not store the exact cell
center: with input height 4 and feature height 4 the stride is 1 and the
exact center of row 0 is 1/2, but the stored entry is 0 — `np.mgrid` yields
an int array, and assigning the float centers into it truncates them. -/
theorem c2_grid_counterexample :
    ¬ ((gridCenter 4 4 0 : ℚ) = gridCenterExact 4 4 0) := by
  rw [gridCenter, gridCenterExact, stride]
  norm_num

/-- Claim C2 (amended): the stored grid entry is the floor (truncation) of
the exact center `i * (IH/H) + (IH/H)/2`, and it equals the exact center
when that center is integral — in particular for every even integer stride
`IH/H = 2k`, where the entry is exactly `2 k i + k`. -/
theorem c2_grid_amended (IH H i : ℕ) (hH : 0 < H) :
    ((gridCenter IH H i : ℚ) ≤ gridCenterExact IH H i ∧
      gridCenterExact IH H i < gridCenter IH H i + 1) ∧
    ∀ k : ℕ, IH = 2 * k * H →
      (gridCenter IH H i : ℚ) = gridCenterExact IH H i ∧
      gridCenter IH H i = 2 * k * i + k := by
  constructor
  · constructor
    · exact_mod_cast Int.floor_le (gridCenterExact IH H i)
    · exact_mod_cast Int.lt_floor_add_one (gridCenterExact IH H i)
  · intro k hk
    subst hk
    have hH0 : (H : ℚ) ≠ 0 := Nat.cast_ne_zero.mpr hH.ne'
    have hstride : stride (2 * k * H) H = 2 * k := by
      rw [stride]
      push_cast
      rw [mul_div_assoc, div_self hH0, mul_one]
    have hexact : gridCenterExact (2 * k * H) H i = ((2 * k * i + k : ℕ) : ℚ) := by
      rw [gridCenterExact, hstride]
      push_cast
      ring
    constructor
    · rw [gridCenter, hexact]
      rw [Int.floor_natCast]
      exact_mod_cast rfl
    · rw [gridCenter, hexact, Int.floor_natCast]
      exact_mod_cast rfl

/-- Witness for C2's amended claim: input height 16, feature height 4
(stride 4 = 2·2): the stored entry for row 1 satisfies the floor bounds and
equals the exact center 6. -/
theorem c2_grid_amended_witness :
    (gridCenter 16 4 1 : ℚ) ≤ gridCenterExact 16 4 1 ∧
      (gridCenter 16 4 1 : ℚ) = gridCenterExact 16 4 1 ∧
      gridCenter 16 4 1 = 6 := by
  have h := c2_grid_amended 16 4 1 (by norm_num)
  have h2 := h.2 2 (by norm_num)
  exact ⟨h.1.1, h2.1, by rw [h2.2]; norm_num⟩

/-- Claim C3: a keypoint with either coordinate ≤ 0 is skipped entirely —
the per-keypoint iteration returns the buffers unchanged and raises nothing,
and a channel containing only that keypoint keeps all-zero outputs. -/
theorem c3_invalid_keypoint_skipped (k : Kernel) (cfg : Config) (H W : ℕ)
    (grid : ℕ → ℕ → ℚ × ℚ) (lo : Bool) (ann : ℚ × ℚ) (s : Slice)
    (h : ann.1 ≤ 0 ∨ ann.2 ≤ 0) :
    processKeypoint k cfg H W grid lo ann s = (s, none) ∧
      processChannel k cfg H W grid lo [ann] zeroSlice = (zeroSlice, none) ∧
      ∀ i j, rasterHeatmap k cfg H W grid lo [ann] i j = 0 := by
  have hskip := processKeypoint_skip k cfg H W grid lo ann s h
  have hskip0 := processKeypoint_skip k cfg H W grid lo ann zeroSlice h
  have hchan : processChannel k cfg H W grid lo [ann] zeroSlice =
      (zeroSlice, none) := by
    rw [processChannel, List.foldl_cons, List.foldl_nil]
    rw [stepKeypoint_none k cfg H W grid lo (zeroSlice, none) ann rfl]
    exact hskip0
  refine ⟨hskip, hchan, ?_⟩
  intro i j
  rw [rasterHeatmap, hchan]
  rfl

/-- Witness for C3: a keypoint whose first coordinate is 0 leaves the zero
buffers untouched (Gaussian kernel, locref enabled). -/
theorem c3_invalid_keypoint_skipped_witness :
    processKeypoint Kernel.gaussian cfgEx 4 4 (buildGrid 8 8 4 4) true
        ((0 : ℚ), (5 : ℚ)) zeroSlice = (zeroSlice, none) ∧
      rasterHeatmap Kernel.gaussian cfgEx 4 4 (buildGrid 8 8 4 4) true
        [((0 : ℚ), (5 : ℚ))] 1 1 = 0 := by
  have h := c3_invalid_keypoint_skipped Kernel.gaussian cfgEx 4 4
    (buildGrid 8 8 4 4) true ((0 : ℚ), (5 : ℚ)) zeroSlice
    (Or.inl (by norm_num))
  exact ⟨h.1, h.2.2 1 1⟩

/-- Claim C4: for either kernel, rasterizing two keypoints sequentially into
the same zero-initialized channel yields the elementwise maximum of the
heatmaps each keypoint produces on a zero buffer alone, and the heatmap
never decreases when the second subject is rasterized. -/
theorem c4_max_merge (k : Kernel) (cfg : Config) (H W : ℕ)
    (grid : ℕ → ℕ → ℚ × ℚ) (a1 a2 : ℚ × ℚ) (i j : ℕ) :
    rasterHeatmap k cfg H W grid false [a1, a2] i j =
        max (rasterHeatmap k cfg H W grid false [a1] i j)
          (rasterHeatmap k cfg H W grid false [a2] i j) ∧
      rasterHeatmap k cfg H W grid false [a1] i j ≤
        rasterHeatmap k cfg H W grid false [a1, a2] i j := by
  have h1 : rasterHeatmap k cfg H W grid false [a1] i j =
      (processKeypoint k cfg H W grid false a1 zeroSlice).1.heatmap i j := by
    rw [rasterHeatmap, processChannel_one]
  have h2 : rasterHeatmap k cfg H W grid false [a2] i j =
      (processKeypoint k cfg H W grid false a2 zeroSlice).1.heatmap i j := by
    rw [rasterHeatmap, processChannel_one]
  have hb := processKeypoint_heatmap_bounds k cfg H W grid false a1 zeroSlice i j
    (le_refl 0) zero_le_one
  have hseq : rasterHeatmap k cfg H W grid false [a1, a2] i j =
      max ((processKeypoint k cfg H W grid false a1 zeroSlice).1.heatmap i j)
        ((processKeypoint k cfg H W grid false a2 zeroSlice).1.heatmap i j) := by
    rw [rasterHeatmap, processChannel_pair]
    exact processKeypoint_heatmap_merge k cfg H W grid a2 _ i j hb.1 hb.2
  constructor
  · rw [hseq, h1, h2]
  · rw [hseq, h1]
    exact le_max_left _ _

/-- Claim C5: the Gaussian kernel's per-cell response is
`exp(-dist / (2 std^2))` of the squared distance between grid center and
keypoint, with `std = 2 dist_thresh / 3`; a single keypoint rasterized on a
zero buffer stores exactly that response, the response at squared distance 0
is 1, and the response strictly decreases as the squared distance grows. -/
theorem c5_gaussian_response (cfg : Config) (H W : ℕ) (grid : ℕ → ℕ → ℚ × ℚ)
    (ann : ℚ × ℚ) (i j : ℕ) (d1 d2 : ℚ)
    (hv1 : 0 < ann.1) (hv2 : 0 < ann.2) (ht : 0 < cfg.dist_thresh)
    (hd : d1 < d2) :
    (∀ d : ℚ, gaussianResponse cfg d =
        Real.exp (-(d : ℝ) / (2 * (cfg.std : ℝ) ^ 2))) ∧
      cfg.std = 2 * cfg.dist_thresh / 3 ∧
      rasterHeatmap Kernel.gaussian cfg H W grid false [ann] i j =
        gaussianResponse cfg (distSq (grid i j) (reverseKeypoint ann)) ∧
      gaussianResponse cfg 0 = 1 ∧
      gaussianResponse cfg d2 < gaussianResponse cfg d1 := by
  refine ⟨fun d => rfl, rfl, ?_, ?_, ?_⟩
  · rw [rasterHeatmap, processChannel_one, processKeypoint]
    rw [if_neg (by push_neg; exact ⟨hv2, hv1⟩)]
    rw [updateFn, gaussianUpdate_fst_heatmap]
    exact max_eq_right (gaussianResponse_pos cfg _).le
  · rw [gaussianResponse]
    norm_num
  · have hstd : (0 : ℚ) < cfg.std := by rw [Config.std]; positivity
    have hstdR : (0 : ℝ) < (cfg.std : ℝ) := by exact_mod_cast hstd
    have hden : (0 : ℝ) < 2 * (cfg.std : ℝ) ^ 2 := by positivity
    rw [gaussianResponse, gaussianResponse, Real.exp_lt_exp]
    rw [neg_div, neg_div, neg_lt_neg_iff]
    rw [div_lt_div_iff_of_pos_right hden]
    exact_mod_cast hd

/-- Witness for C5: configuration with dist_thresh 3, the 4x4 grid over an
8x8 input, keypoint (3, 3) landing exactly on the center of cell (1, 1):
the stored response is 1, and the response at squared distance 1 is
strictly below the response at 0. -/
theorem c5_gaussian_response_witness :
    rasterHeatmap Kernel.gaussian cfgEx 4 4 (buildGrid 8 8 4 4) false
        [((3 : ℚ), (3 : ℚ))] 1 1 = 1 ∧
      gaussianResponse cfgEx 1 < gaussianResponse cfgEx 0 := by
  have h := c5_gaussian_response cfgEx 4 4 (buildGrid 8 8 4 4)
    ((3 : ℚ), (3 : ℚ)) 1 1 0 1 (by norm_num) (by norm_num)
    (by norm_num [cfgEx]) (by norm_num)
  refine ⟨?_, h.2.2.2.2⟩
  rw [h.2.2.1]
  have hd : distSq (buildGrid 8 8 4 4 1 1) (reverseKeypoint ((3 : ℚ), (3 : ℚ))) =
      0 := by
    rw [buildGrid, reverseKeypoint, distSq]
    norm_num [gridCenter, gridCenterExact, stride]
  rw [hd]
  exact h.2.2.2.1

/-- Claim C6: with the Plateau kernel, a single valid keypoint on a zero
channel yields an exactly 0/1-valued heatmap: a cell is 1 precisely when the
Euclidean distance from its grid center to the keypoint is at most
dist_thresh (equivalently, squared distance at most dist_thresh squared),
and every farther cell keeps its initial 0. -/
theorem c6_plateau_binary (cfg : Config) (H W : ℕ) (grid : ℕ → ℕ → ℚ × ℚ)
    (lo : Bool) (ann : ℚ × ℚ) (i j : ℕ)
    (hv1 : 0 < ann.1) (hv2 : 0 < ann.2) (ht : 0 ≤ cfg.dist_thresh) :
    rasterHeatmap Kernel.plateau cfg H W grid lo [ann] i j =
        (if Real.sqrt ((distSq (grid i j) (reverseKeypoint ann) : ℚ) : ℝ) ≤
            (cfg.dist_thresh : ℝ) then 1 else 0) ∧
      (rasterHeatmap Kernel.plateau cfg H W grid lo [ann] i j = 0 ∨
        rasterHeatmap Kernel.plateau cfg H W grid lo [ann] i j = 1) := by
  have hiff : (Real.sqrt ((distSq (grid i j) (reverseKeypoint ann) : ℚ) : ℝ) ≤
      (cfg.dist_thresh : ℝ)) ↔
      distSq (grid i j) (reverseKeypoint ann) ≤ cfg.dist_thresh_sq := by
    rw [Real.sqrt_le_left (by exact_mod_cast ht), Config.dist_thresh_sq]
    constructor <;> intro hcast <;> exact_mod_cast hcast
  have hchar : rasterHeatmap Kernel.plateau cfg H W grid lo [ann] i j =
      if distSq (grid i j) (reverseKeypoint ann) ≤ cfg.dist_thresh_sq then 1
      else 0 := by
    rw [rasterHeatmap, processChannel, List.foldl_cons, List.foldl_nil]
    rw [stepKeypoint_none Kernel.plateau cfg H W grid lo (zeroSlice, none) ann rfl]
    rw [processKeypoint]
    rw [if_neg (by push_neg; exact ⟨hv2, hv1⟩)]
    rw [updateFn, plateauUpdate_heatmap]
    rfl
  constructor
  · rw [hchar]
    simp only [hiff]
  · rw [hchar]
    split
    · exact Or.inr rfl
    · exact Or.inl rfl

/-- Witness for C6: dist_thresh 3, 4x4 grid over an 8x8 input, keypoint
(3, 3): cell (1, 1) (center at distance 0) reads 1 and cell (3, 3) (center
(7, 7), distance 32 > 9) reads 0. -/
theorem c6_plateau_binary_witness :
    rasterHeatmap Kernel.plateau cfgEx 4 4 (buildGrid 8 8 4 4) true
        [((3 : ℚ), (3 : ℚ))] 1 1 = 1 ∧
      rasterHeatmap Kernel.plateau cfgEx 4 4 (buildGrid 8 8 4 4) true
        [((3 : ℚ), (3 : ℚ))] 3 3 = 0 := by
  have h11 := c6_plateau_binary cfgEx 4 4 (buildGrid 8 8 4 4) true
    ((3 : ℚ), (3 : ℚ)) 1 1 (by norm_num) (by norm_num) (by norm_num [cfgEx])
  have h33 := c6_plateau_binary cfgEx 4 4 (buildGrid 8 8 4 4) true
    ((3 : ℚ), (3 : ℚ)) 3 3 (by norm_num) (by norm_num) (by norm_num [cfgEx])
  constructor
  · rw [h11.1, if_pos]
    have hd : distSq (buildGrid 8 8 4 4 1 1) (reverseKeypoint ((3 : ℚ), (3 : ℚ))) =
        0 := by
      rw [buildGrid, reverseKeypoint, distSq]
      norm_num [gridCenter, gridCenterExact, stride]
    rw [hd]
    rw [show (((0 : ℚ) : ℝ)) = 0 by norm_num, Real.sqrt_zero]
    norm_num [cfgEx]
  · rw [h33.1, if_neg]
    have hd : distSq (buildGrid 8 8 4 4 3 3) (reverseKeypoint ((3 : ℚ), (3 : ℚ))) =
        32 := by
      rw [buildGrid, reverseKeypoint, distSq]
      norm_num [gridCenter, gridCenterExact, stride]
    rw [hd]
    rw [not_le]
    rw [show ((cfgEx.dist_thresh : ℝ)) = 3 by norm_num [cfgEx]]
    rw [show (((32 : ℚ) : ℝ)) = 32 by norm_num]
    nlinarith [Real.sq_sqrt (by norm_num : (0:ℝ) ≤ 32),
      Real.sqrt_nonneg (32 : ℝ)]

/-- Claim C7: the coordinate normalizer inserts a singleton subject axis for
a rank-3 keypoint batch, swaps the subject and keypoint-type axes (axes 1
and 2) in KEYPOINT mode but not in INDIVIDUAL mode, and the kernel is
invoked on the keypoint with its two coordinates reversed (annotation (x, y)
order to grid (row, col) order). -/
theorem c7_coordinate_normalizer (coords : ℕ → ℕ → ℕ → ℚ × ℚ)
    (coords3 : ℕ → ℕ → ℚ × ℚ) (k : Kernel) (cfg : Config) (H W : ℕ)
    (grid : ℕ → ℕ → ℚ × ℚ) (lo : Bool) (ann : ℚ × ℚ) (s : Slice)
    (b c g t : ℕ) (hv1 : 0 < ann.1) (hv2 : 0 < ann.2) :
    arrangeCoords Mode.KEYPOINT coords b c g = coords b g c ∧
      arrangeCoords Mode.INDIVIDUAL coords b c g = coords b c g ∧
      insertIndividualDim coords3 b 0 t = coords3 b t ∧
      reverseKeypoint ann = (ann.2, ann.1) ∧
      processKeypoint k cfg H W grid lo ann s =
        updateFn k cfg H W grid lo (ann.2, ann.1) s := by
  refine ⟨rfl, rfl, rfl, rfl, ?_⟩
  rw [processKeypoint]
  rw [if_neg (by push_neg; exact ⟨hv2, hv1⟩)]
  rfl

/-- Witness for C7 at concrete data: a 2-subject, 2-type batch is
transposed in KEYPOINT mode, left alone in INDIVIDUAL mode, the singleton
subject axis reads through, and processing keypoint (3, 2) calls the kernel
on (2, 3). -/
theorem c7_coordinate_normalizer_witness :
    arrangeCoords Mode.KEYPOINT
        (fun b s t => ((b + 10 * s + 100 * t : ℚ), 0)) 0 1 2 =
        ((120 : ℚ), 0) ∧
      arrangeCoords Mode.INDIVIDUAL
        (fun b s t => ((b + 10 * s + 100 * t : ℚ), 0)) 0 1 2 =
        ((210 : ℚ), 0) ∧
      insertIndividualDim (fun b t => ((b + 10 * t : ℚ), 0)) 0 0 2 =
        ((20 : ℚ), 0) ∧
      processKeypoint Kernel.plateau cfgEx 4 4 (buildGrid 8 8 4 4) true
        ((3 : ℚ), (2 : ℚ)) zeroSlice =
        updateFn Kernel.plateau cfgEx 4 4 (buildGrid 8 8 4 4) true
          ((2 : ℚ), (3 : ℚ)) zeroSlice := by
  have h := c7_coordinate_normalizer
    (fun b s t => ((b + 10 * s + 100 * t : ℚ), 0))
    (fun b t => ((b + 10 * t : ℚ), 0)) Kernel.plateau cfgEx 4 4
    (buildGrid 8 8 4 4) true ((3 : ℚ), (2 : ℚ)) zeroSlice 0 1 2 2
    (by norm_num) (by norm_num)
  refine ⟨?_, ?_, ?_, h.2.2.2.2⟩
  · rw [h.1]; norm_num
  · rw [h.2.1]; norm_num
  · rw [h.2.2.1]; norm_num

/-- Claim C8: the assembler's transpose is a pure re-indexing — the output
at (b, c, h, w) equals the pre-transpose buffer at (b, h, w, c) — and after
it the heatmap has exactly num_heatmaps channels while the locref map and
mask have exactly 2 * num_heatmaps channels. -/
theorem c8_assembler (buf : ℕ → ℕ → ℕ → ℕ → ℝ) (cfg : Config)
    (B H W b c h w : ℕ) :
    transpose0312 buf b c h w = buf b h w c ∧
      transposeShape0312 (heatmapAllocShape cfg B H W) =
        (B, cfg.num_heatmaps, H, W) ∧
      transposeShape0312 (locrefAllocShape cfg B H W) =
        (B, 2 * cfg.num_heatmaps, H, W) := by
  refine ⟨rfl, rfl, ?_⟩
  rw [transposeShape0312, locrefAllocShape]
  rw [Nat.mul_comm cfg.num_heatmaps 2]

/-- Claim C9: the Plateau kernel's locref and mask writes are confined to
the threshold region — any cell with squared distance above
dist_thresh squared keeps its prior locref and mask values — whereas the
Gaussian kernel overwrites the locref offsets of every cell of the grid,
regardless of its distance to the keypoint. -/
theorem c9_locref_frame (cfg : Config) (H W : ℕ) (grid : ℕ → ℕ → ℚ × ℚ)
    (kp : ℚ × ℚ) (s : Slice) (i j : ℕ) (c : Fin 2)
    (h : cfg.dist_thresh_sq < distSq (grid i j) kp) :
    (plateauUpdate cfg grid true kp s).locref_map i j c = s.locref_map i j c ∧
      (plateauUpdate cfg grid true kp s).locref_mask i j c =
        s.locref_mask i j c ∧
      ∀ i' j' (c' : Fin 2),
        (gaussianUpdate cfg H W grid true kp s).1.locref_map i' j' c' =
          locrefValue cfg (grid i' j') kp c' := by
  refine ⟨?_, ?_, ?_⟩
  · rw [plateauUpdate_locref, if_neg (not_le.mpr h)]
  · rw [plateauUpdate_mask, if_neg (not_le.mpr h)]
  · intro i' j' c'
    exact gaussianUpdate_fst_locref cfg H W grid kp s i' j' c'

/-- Witness for C9: dist_thresh 3, keypoint (10, 10), cell (0, 0) with
center (1, 1) at squared distance 162 > 9: the Plateau update leaves its
locref and mask at 0, while the Gaussian update still overwrites that
cell's dx component. -/
theorem c9_locref_frame_witness :
    (plateauUpdate cfgEx (buildGrid 8 8 4 4) true ((10 : ℚ), (10 : ℚ))
        zeroSlice).locref_map 0 0 0 = 0 ∧
      (plateauUpdate cfgEx (buildGrid 8 8 4 4) true ((10 : ℚ), (10 : ℚ))
        zeroSlice).locref_mask 0 0 0 = 0 ∧
      (gaussianUpdate cfgEx 4 4 (buildGrid 8 8 4 4) true ((10 : ℚ), (10 : ℚ))
        zeroSlice).1.locref_map 0 0 0 =
        locrefValue cfgEx (buildGrid 8 8 4 4 0 0) ((10 : ℚ), (10 : ℚ)) 0 := by
  have h := c9_locref_frame cfgEx 4 4 (buildGrid 8 8 4 4)
    ((10 : ℚ), (10 : ℚ)) zeroSlice 0 0 0
    (by norm_num [cfgEx, Config.dist_thresh_sq, buildGrid, distSq,
      gridCenter, gridCenterExact, stride])
  exact ⟨(h.1).trans rfl, (h.2.1).trans rfl, h.2.2 0 0 0⟩

/-- Claim C10: every heatmap value assembled by forward lies in [0, 1], for
both kernels, any configuration and any batch of keypoint lists: buffers
start at zero, the Gaussian merge writes max(previous, exp(-d)) with d
nonnegative, and the Plateau merge only writes 1. -/
theorem c10_heatmap_in_unit_interval (k : Kernel) (cfg : Config)
    (IH IW H W : ℕ) (coords : ℕ → ℕ → List (ℚ × ℚ)) (b c i j : ℕ) :
    0 ≤ forwardHeatmap k cfg IH IW H W coords b c i j ∧
      forwardHeatmap k cfg IH IW H W coords b c i j ≤ 1 := by
  rw [forwardHeatmap, rasterHeatmap]
  exact processChannel_heatmap_bounds k cfg H W (buildGrid IH IW H W)
    cfg.generate_locref (coords b c) i j

end DLC
